import Mathlib

/-!
Shallow embedding of the microps device/interrupt/protocol dispatch
pipeline (src/net.c, src/driver/loopback.c, src/platform/linux/intr.c,
src/ip.c) and proofs about it.

Modelling conventions:
* machine integers (`uint16_t`, `size_t`, `unsigned int`) are `Nat`;
  C `int` return codes are `Int` (the code only ever produces 0 and -1);
* a payload (`const uint8_t *data` together with `size_t len`) is a
  `List Nat` whose length plays the role of `len`;
* the generic FIFO queue (`struct queue_head` from util.c, which is not
  part of the sources given; spec §2/§4.1 describe it as an ordered FIFO
  container) is modelled as a Lean `List`: `queue_push` appends at the
  tail, `queue_pop` removes the head, `queue.num` is the list length;
* `memory_alloc` is treated as succeeding (spec §1 treats allocation as
  an opaque collaborator; every claim about an allocation path is
  conditioned on successful allocation);
* function pointers (protocol handlers, IRQ handlers) are identified by
  an abstract numeric id, and an "invocation" is recorded as an event in
  a result list instead of actually calling anything;
* heap objects mutated through pointers become explicit state threaded
  through the functions.
-/

/-- Constant `NET_DEVICE_FLAG_UP` from net.h. -/
def NET_DEVICE_FLAG_UP : Nat := 0x0001

/-- Constant `LOOPBACK_QUEUE_LIMIT` from driver/loopback.c. -/
def LOOPBACK_QUEUE_LIMIT : Nat := 16

/-- Modelled from the spec: `INTR_IRQ_SHARED` is defined in
platform/linux/platform.h, which is not among the given sources; the
spec (§3, §6) describes it as the flag value declaring an IRQ
registration shareable.  Its concrete numeric value is immaterial to
every statement below (only equality with itself is used, through the
source's xor test). -/
def INTR_IRQ_SHARED : Nat := 0x0001

/-- Embedding of `struct net_device` (net.h): the fields of the device descriptor.
The `next` pointer becomes list membership, `ops` and `priv` are passed
separately where a function needs them. -/
structure NetDevice where
  index : Nat
  name : String
  ty : Nat
  mtu : Nat
  flags : Nat
  hlen : Nat
  alen : Nat
deriving DecidableEq, Repr

/-- Macro `NET_DEVICE_IS_UP` (net.h): `flags & NET_DEVICE_FLAG_UP`. -/
def NET_DEVICE_IS_UP (d : NetDevice) : Nat :=
  d.flags &&& NET_DEVICE_FLAG_UP

/-- Embedding of `net_device_output` (net.c, lines 107-130).  The driver transmit
operation `dev->ops->transmit` is a parameter; it receives the device
and the driver-private state `σ` and returns its `int` result together
with the possibly updated device and private state. -/
def net_device_output {σ : Type} (transmit : NetDevice → σ → Nat → List Nat → Int × NetDevice × σ)
    (dev : NetDevice) (p : σ) (ty : Nat) (data : List Nat) : Int × NetDevice × σ :=
  if NET_DEVICE_IS_UP dev = 0 then (-1, dev, p)
  else if dev.mtu < data.length then (-1, dev, p)
  else
    let r := transmit dev p ty data
    if r.1 = -1 then (-1, r.2.1, r.2.2) else (0, r.2.1, r.2.2)

/-- Embedding of `net_device_close` (net.c, lines 85-105).  The optional driver close
hook `dev->ops->close` is a parameter.  `flags &= ~NET_DEVICE_FLAG_UP`
on the `uint16_t` flags field is masking with 0xFFFE. -/
def net_device_close (closeOp : Option (NetDevice → Int × NetDevice))
    (dev : NetDevice) : Int × NetDevice :=
  if NET_DEVICE_IS_UP dev = 0 then (-1, dev)
  else
    match closeOp with
    | some c =>
      let r := c dev
      if r.1 = -1 then (-1, r.2)
      else (0, { r.2 with flags := r.2.flags &&& 0xFFFE })
    | none => (0, { dev with flags := dev.flags &&& 0xFFFE })

/-- Embedding of `struct net_protocol_queue_entry` (net.c, lines 23-27): originating
device (by its identity), payload length, payload copy. -/
structure ProtoEntry where
  dev : Nat
  len : Nat
  data : List Nat
deriving DecidableEq, Repr

/-- Embedding of `struct net_protocol` (net.c, lines 14-21): protocol type, inbound
queue, and the handler function pointer (abstract id). -/
structure NetProtocol where
  ty : Nat
  handler : Nat
  queue : List ProtoEntry
deriving DecidableEq, Repr

/-- The registry scan `for (proto = protocols; proto; proto = proto->next)
if (proto->type == type)` used by net_input_handler: the first protocol
entry whose type matches. -/
def findProtocol (ty : Nat) : List NetProtocol → Option NetProtocol
  | [] => none
  | p :: rest => if p.ty = ty then some p else findProtocol ty rest

/-- The duplicate scan of `net_protocol_register` (net.c, lines 139-144). -/
def proto_type_registered (ty : Nat) : List NetProtocol → Bool
  | [] => false
  | p :: rest => if p.ty = ty then true else proto_type_registered ty rest

/-- Embedding of `net_protocol_register` (net.c, lines 133-159): reject a duplicate
type, otherwise prepend a fresh entry with an empty queue.  `hid` is the
handler function pointer (abstract id). -/
def net_protocol_register (ty hid : Nat) (ps : List NetProtocol) :
    Int × List NetProtocol :=
  if proto_type_registered ty ps then (-1, ps)
  else (0, ⟨ty, hid, []⟩ :: ps)

/-- Result of `net_input_handler`: the `int` return value, the updated
protocol registry, and whether `intr_raise_irq(INTR_IRQ_SOFTIRQ)` was
called. -/
structure InputResult where
  ret : Int
  protocols : List NetProtocol
  raised : Bool
deriving DecidableEq, Repr

/-- Embedding of `net_input_handler` (net.c, lines 161-203): scan the registry; on
the first type match, push a copied entry onto that protocol's queue and
raise the softirq line; with no match, return 0 (success) untouched. -/
def net_input_handler (ty : Nat) (data : List Nat) (dev : Nat) :
    List NetProtocol → InputResult
  | [] => ⟨0, [], false⟩
  | p :: rest =>
    if p.ty = ty then
      ⟨0, { p with queue := p.queue ++ [⟨dev, data.length, data⟩] } :: rest, true⟩
    else
      let r := net_input_handler ty data dev rest
      ⟨r.ret, p :: r.protocols, r.raised⟩

/-- One step of the softirq drain, observed as events: the handler call
`proto->handler(entry->data, entry->len, entry->dev)` and the
`memory_free(entry)` that follows it (net.c, lines 212-225). -/
inductive SoftirqEvent where
  | invoke (handler : Nat) (data : List Nat) (len : Nat) (dev : Nat)
  | release (data : List Nat) (len : Nat) (dev : Nat)
deriving DecidableEq, Repr

/-- The inner `while (1) { entry = queue_pop(...); ... }` loop of
`net_softirq_handler` for one protocol: pop until empty, invoking the
handler and then releasing each popped entry. -/
def softirq_drain_queue (hid : Nat) : List ProtoEntry → List SoftirqEvent
  | [] => []
  | e :: rest =>
    SoftirqEvent.invoke hid e.data e.len e.dev ::
      SoftirqEvent.release e.data e.len e.dev :: softirq_drain_queue hid rest

/-- Embedding of `net_softirq_handler` (net.c, lines 206-228): for every registered
protocol, drain its queue to empty; returns the updated registry and the
event trace. -/
def net_softirq_handler : List NetProtocol → List NetProtocol × List SoftirqEvent
  | [] => ([], [])
  | p :: rest =>
    let evs := softirq_drain_queue p.handler p.queue
    let r := net_softirq_handler rest
    ({ p with queue := [] } :: r.1, evs ++ r.2)

/-- The `.invoke` events of a softirq trace: the actual protocol handler
invocations. -/
def invocations : List SoftirqEvent → List SoftirqEvent
  | [] => []
  | e :: rest =>
    match e with
    | SoftirqEvent.invoke h d l v => SoftirqEvent.invoke h d l v :: invocations rest
    | SoftirqEvent.release _ _ _ => invocations rest

/-- Embedding of `struct loopback_queue_entry` (driver/loopback.c, lines 23-27). -/
structure LoopbackEntry where
  ty : Nat
  len : Nat
  data : List Nat
deriving DecidableEq, Repr

/-- Embedding of `struct loopback` (driver/loopback.c, lines 17-21): the driver
private state (the mutex is not data; it serialises access and is
modelled by the action trace below). -/
structure Loopback where
  irq : Nat
  queue : List LoopbackEntry
deriving DecidableEq, Repr

/-- Embedding of `loopback_transmit` (driver/loopback.c, lines 29-66): under the
mutex, reject when the queue is at `LOOPBACK_QUEUE_LIMIT`, otherwise
push a copied entry; after unlocking, raise the driver's IRQ.  Returns
the `int` result, the updated private state, and whether
`intr_raise_irq` was called. -/
def loopback_transmit (lo : Loopback) (ty : Nat) (data : List Nat) :
    Int × Loopback × Bool :=
  if LOOPBACK_QUEUE_LIMIT ≤ lo.queue.length then (-1, lo, false)
  else (0, { lo with queue := lo.queue ++ [⟨ty, data.length, data⟩] }, true)

/-- Wrapper putting `loopback_transmit` in the shape `net_device_output` expects of
`dev->ops->transmit` (the driver never writes the device descriptor
itself, only its private state reached through `dev->priv`). -/
def loopback_transmit_op (dev : NetDevice) (lo : Loopback) (ty : Nat)
    (data : List Nat) : Int × NetDevice × Loopback :=
  let r := loopback_transmit lo ty data
  (r.1, dev, r.2.1)

/-- The inner drain loop of `loopback_isr` (driver/loopback.c, lines
76-91): pop each entry and hand it to `net_input_handler` with this
device; the registry state is threaded through, and the `raised` flags
of the hand-offs are joined. -/
def loopback_isr_drain (dev : Nat) :
    List LoopbackEntry → List NetProtocol → List NetProtocol × Bool
  | [], ps => (ps, false)
  | e :: rest, ps =>
    let r := net_input_handler e.ty e.data dev ps
    let rec' := loopback_isr_drain dev rest r.protocols
    (rec'.1, r.raised || rec'.2)

/-- Embedding of `loopback_isr` (driver/loopback.c, lines 68-96): drain the private
queue to empty, handing each entry to `net_input_handler`. -/
def loopback_isr (dev : Nat) (lo : Loopback) (ps : List NetProtocol) :
    Loopback × List NetProtocol × Bool :=
  let r := loopback_isr_drain dev lo.queue ps
  ({ lo with queue := [] }, r.1, r.2)

/-- The observable actions of `loopback_isr` in program order:
`mutex_lock`, the `net_input_handler` hand-off and `memory_free` for
each popped entry, `mutex_unlock`. -/
inductive IsrAction where
  | lock
  | handoff (ty : Nat) (len : Nat) (data : List Nat)
  | free
  | unlock
deriving DecidableEq, Repr

/-- Actions of the `while (1)` loop body of `loopback_isr` over the
entries popped from the queue (driver/loopback.c, lines 76-91). -/
def loopback_isr_actions : List LoopbackEntry → List IsrAction
  | [] => []
  | e :: rest =>
    IsrAction.handoff e.ty e.len e.data :: IsrAction.free ::
      loopback_isr_actions rest

/-- The full action trace of `loopback_isr` (driver/loopback.c, lines
68-96): `mutex_lock` at line 75, the drain loop, `mutex_unlock` at
line 94. -/
def loopback_isr_trace (lo : Loopback) : List IsrAction :=
  IsrAction.lock :: (loopback_isr_actions lo.queue ++ [IsrAction.unlock])

/-- Annotate each action of a trace with whether the mutex is held when
the action happens (`held` is the lock state on entry). -/
def annotate (held : Bool) : List IsrAction → List (IsrAction × Bool)
  | [] => []
  | IsrAction.lock :: rest => (IsrAction.lock, held) :: annotate true rest
  | IsrAction.unlock :: rest => (IsrAction.unlock, held) :: annotate false rest
  | a :: rest => (a, held) :: annotate held rest

/-- Decidable check: every `net_input_handler` hand-off in the trace
happens while the mutex is NOT held. -/
def handoffs_all_outside_mutex (tr : List IsrAction) : Bool :=
  (annotate false tr).all fun p =>
    match p.1 with
    | IsrAction.handoff _ _ _ => ! p.2
    | _ => true

/-- Embedding of `struct irq_entry` (platform/linux/intr.c, lines 10-20); the handler
function pointer is an abstract id, the owning device a numeric
identity. -/
structure IrqEntry where
  irq : Nat
  handler : Nat
  flags : Nat
  name : String
  dev : Nat
deriving DecidableEq, Repr

/-- The conflict scan of `intr_request_irq` (platform/linux/intr.c,
lines 41-48): an existing registration on the same line conflicts unless
`entry->flags ^ INTR_IRQ_SHARED` and `flags ^ INTR_IRQ_SHARED` are both
zero. -/
def irq_conflict (irq flags : Nat) : List IrqEntry → Bool
  | [] => false
  | e :: rest =>
    if e.irq = irq ∧ (e.flags ^^^ INTR_IRQ_SHARED ≠ 0 ∨ flags ^^^ INTR_IRQ_SHARED ≠ 0) then
      true
    else irq_conflict irq flags rest

/-- Embedding of `intr_request_irq` (platform/linux/intr.c, lines 31-74): reject on a
sharing conflict, otherwise prepend the new registration (the
`sigaddset` on the signal mask adds nothing observable to the
registrations themselves). -/
def intr_request_irq (irqs : List IrqEntry) (irq hid flags : Nat)
    (name : String) (dev : Nat) : Int × List IrqEntry :=
  if irq_conflict irq flags irqs then (-1, irqs)
  else (0, ⟨irq, hid, flags, name, dev⟩ :: irqs)

/-- The `default` arm of the dispatch loop of `intr_thread`
(platform/linux/intr.c, lines 106-114): walk the IRQ list and invoke
every handler whose line number matches the received signal; the result
lists the (handler id, owning device) pairs invoked, in invocation
order. -/
def intr_dispatch_line (sig : Nat) : List IrqEntry → List (Nat × Nat)
  | [] => []
  | e :: rest =>
    if e.irq = sig then (e.handler, e.dev) :: intr_dispatch_line sig rest
    else intr_dispatch_line sig rest

/-- What `intr_shutdown` does externally: whether it sent the terminate
signal (`pthread_kill(tid, SIGHUP)`) and whether it joined the dispatch
thread. -/
structure ShutdownEffect where
  sentTerminate : Bool
  joined : Bool
deriving DecidableEq, Repr

/-- Embedding of `intr_init` (platform/linux/intr.c, lines 160-168) sets `tid` to the
calling thread's own id; threads are modelled by numeric ids. -/
def intr_init_tid (self : Nat) : Nat := self

/-- Embedding of `intr_shutdown` (platform/linux/intr.c, lines 147-158): when `tid`
still equals the calling thread's id (the dispatch thread was never
created), return immediately; otherwise send SIGHUP and join. -/
def intr_shutdown (tid self : Nat) : ShutdownEffect :=
  if tid = self then ⟨false, false⟩ else ⟨true, true⟩

/-- Embedding of `net_shutdown` (net.c, lines 248-260): close every registered device
(each paired with its optional driver close hook), then call
`intr_shutdown`. -/
def net_shutdown (devs : List (Option (NetDevice → Int × NetDevice) × NetDevice))
    (tid self : Nat) : List NetDevice × ShutdownEffect :=
  (devs.map (fun d => (net_device_close d.1 d.2).2), intr_shutdown tid self)

/-- Embedding of `intr_init`'s return value (platform/linux/intr.c, lines 160-168):
the function always ends in `return 0`. -/
def intr_init_ret : Int := 0

/-- Embedding of `ip_init`'s return value.  src/ip.c line 14 reads
`int ip_init(void) {}`: the function body has no return statement, so
the `int` value the caller reads is indeterminate; it is modelled as a
free parameter. -/
def ip_init_ret (indeterminate : Int) : Int := indeterminate

/-- Embedding of `net_init` (net.c, lines 262-274): fail if `intr_init()` returns -1,
fail if `ip_init()` returns -1, otherwise return 0. -/
def net_init (ipRet : Int) : Int :=
  if intr_init_ret = -1 then -1
  else if ip_init_ret ipRet = -1 then -1
  else 0

/-! ## Helper lemmas shared between claims -/

theorem softirq_drain_queue_eq (hid : Nat) (q : List ProtoEntry) :
    softirq_drain_queue hid q
      = q.flatMap (fun e => [SoftirqEvent.invoke hid e.data e.len e.dev,
                          SoftirqEvent.release e.data e.len e.dev]) := by
  induction q with
  | nil => rfl
  | cons e rest ih => simp [softirq_drain_queue, ih]

theorem net_softirq_handler_fst (ps : List NetProtocol) :
    (net_softirq_handler ps).1 = ps.map (fun p => { p with queue := [] }) := by
  induction ps with
  | nil => rfl
  | cons p rest ih => simp [net_softirq_handler, ih]

theorem net_softirq_handler_snd (ps : List NetProtocol) :
    (net_softirq_handler ps).2
      = ps.flatMap (fun p => softirq_drain_queue p.handler p.queue) := by
  induction ps with
  | nil => rfl
  | cons p rest ih => simp [net_softirq_handler, ih]

theorem net_softirq_handler_snd_empty (ps : List NetProtocol)
    (h : ∀ q ∈ ps, q.queue = []) : (net_softirq_handler ps).2 = [] := by
  induction ps with
  | nil => rfl
  | cons p rest ih =>
    have hp : p.queue = [] := h p (List.mem_cons_self _ _)
    have hrest : ∀ q ∈ rest, q.queue = [] := fun q hq => h q (List.mem_cons_of_mem _ hq)
    simp [net_softirq_handler, hp, softirq_drain_queue, ih hrest]

/-! ## Claims -/

/-- C2: `net_device_output` fails when the device is not up or when the
payload exceeds the MTU, leaving every device field (and the driver
private state) untouched and never calling transmit; otherwise it calls
the device's transmit operation and returns failure exactly when
transmit returns -1. -/
theorem C2_net_device_output_contract {σ : Type}
    (transmit : NetDevice → σ → Nat → List Nat → Int × NetDevice × σ)
    (dev : NetDevice) (p : σ) (ty : Nat) (data : List Nat) :
    ((NET_DEVICE_IS_UP dev = 0 ∨ dev.mtu < data.length) →
      net_device_output transmit dev p ty data = (-1, dev, p)) ∧
    (NET_DEVICE_IS_UP dev ≠ 0 → data.length ≤ dev.mtu →
      net_device_output transmit dev p ty data
        = ((if (transmit dev p ty data).1 = -1 then (-1 : Int) else 0),
           (transmit dev p ty data).2) ∧
      ((net_device_output transmit dev p ty data).1 = -1 ↔
        (transmit dev p ty data).1 = -1)) := by
  constructor
  · rintro (h | h)
    · simp [net_device_output, h]
    · rcases Nat.eq_zero_or_pos (NET_DEVICE_IS_UP dev) with h0 | h0
      · simp [net_device_output, h0]
      · simp [net_device_output, Nat.pos_iff_ne_zero.mp h0, h]
  · intro hup hlen
    have hmtu : ¬ dev.mtu < data.length := Nat.not_lt.mpr hlen
    constructor
    · simp only [net_device_output, if_neg hup, if_neg hmtu]
      by_cases ht : (transmit dev p ty data).1 = -1 <;> simp [ht]
    · simp only [net_device_output, if_neg hup, if_neg hmtu]
      by_cases ht : (transmit dev p ty data).1 = -1 <;> simp [ht]

/-- C2 witness: on a device that is not up, output fails and returns the
device and private state unchanged. -/
theorem C2_net_device_output_contract_witness :
    net_device_output (fun d u _ _ => (0, d, u)) ⟨0, "net0", 1, 65535, 0x0010, 0, 0⟩ () 0x0800 [1, 2, 3]
      = (-1, ⟨0, "net0", 1, 65535, 0x0010, 0, 0⟩, ()) :=
  (C2_net_device_output_contract (fun d u _ _ => (0, d, u))
    ⟨0, "net0", 1, 65535, 0x0010, 0, 0⟩ () 0x0800 [1, 2, 3]).1 (Or.inl (by decide))

/-- C3: the softirq drain empties every registered protocol's queue,
invoking that protocol's handler once per popped entry with the entry's
payload, length and originating device, releasing each entry right after
its handler call; afterwards every protocol queue is empty. -/
theorem C3_softirq_drains_to_empty (ps : List NetProtocol) :
    (net_softirq_handler ps).1 = ps.map (fun p => { p with queue := [] }) ∧
    (net_softirq_handler ps).2
      = ps.flatMap (fun p => p.queue.flatMap
          (fun e => [SoftirqEvent.invoke p.handler e.data e.len e.dev,
                     SoftirqEvent.release e.data e.len e.dev])) ∧
    ∀ p' ∈ (net_softirq_handler ps).1, p'.queue = [] := by
  refine ⟨net_softirq_handler_fst ps, ?_, ?_⟩
  · rw [net_softirq_handler_snd]
    exact List.flatMap_congr (fun p _ => softirq_drain_queue_eq p.handler p.queue)
  · intro p' hp'
    rw [net_softirq_handler_fst] at hp'
    rcases List.mem_map.mp hp' with ⟨p, _, rfl⟩
    rfl

/-- C6: registering an already registered protocol type fails and leaves
the registry (hence the handler that receives that type) unchanged; a
first registration of a type succeeds and prepends an entry with an
empty queue. -/
theorem C6_protocol_register_duplicate (ps : List NetProtocol) (ty hid : Nat) :
    (proto_type_registered ty ps = true →
      net_protocol_register ty hid ps = (-1, ps) ∧
      findProtocol ty (net_protocol_register ty hid ps).2 = findProtocol ty ps) ∧
    (proto_type_registered ty ps = false →
      net_protocol_register ty hid ps = (0, ⟨ty, hid, []⟩ :: ps)) := by
  constructor
  · intro h
    simp [net_protocol_register, h]
  · intro h
    simp [net_protocol_register, h]

/-- C6 witness: a duplicate registration of type 0x0800 fails and keeps
the registry as it was. -/
theorem C6_protocol_register_duplicate_witness :
    net_protocol_register 0x0800 7 [⟨0x0800, 42, []⟩] = (-1, [⟨0x0800, 42, []⟩]) :=
  ((C6_protocol_register_duplicate [⟨0x0800, 42, []⟩] 0x0800 7).1 (by decide)).1

/-- C9: `net_input_handler` on a type with no matching registry entry
returns success, changes no protocol queue and does not raise the
softirq line; on the first matching entry it appends exactly one copied
entry to that protocol's queue, raises the softirq line and returns
success. -/
theorem C9_input_handler_dispatch (ty dev : Nat) (data : List Nat) :
    (∀ ps : List NetProtocol, (∀ q ∈ ps, q.ty ≠ ty) →
      net_input_handler ty data dev ps = ⟨0, ps, false⟩) ∧
    (∀ (l1 : List NetProtocol) (p : NetProtocol) (l2 : List NetProtocol),
      (∀ q ∈ l1, q.ty ≠ ty) → p.ty = ty →
      net_input_handler ty data dev (l1 ++ p :: l2)
        = ⟨0, l1 ++ { p with queue := p.queue ++ [⟨dev, data.length, data⟩] } :: l2, true⟩) := by
  constructor
  · intro ps h
    induction ps with
    | nil => rfl
    | cons q rest ih =>
      have hq : q.ty ≠ ty := h q (List.mem_cons_self _ _)
      have hrest : ∀ q' ∈ rest, q'.ty ≠ ty := fun q' hq' => h q' (List.mem_cons_of_mem _ hq')
      simp [net_input_handler, hq, ih hrest]
  · intro l1 p l2 h1 hp
    induction l1 with
    | nil => simp [net_input_handler, hp]
    | cons q rest ih =>
      have hq : q.ty ≠ ty := h1 q (List.mem_cons_self _ _)
      have hrest : ∀ q' ∈ rest, q'.ty ≠ ty := fun q' hq' => h1 q' (List.mem_cons_of_mem _ hq')
      simp [net_input_handler, hq, ih hrest]

/-- C9 witness: an unmatched type is silently discarded with success and
no softirq, and a matched type appends one entry and raises softirq. -/
theorem C9_input_handler_dispatch_witness :
    net_input_handler 0x86dd [9] 0 [⟨0x0800, 42, []⟩] = ⟨0, [⟨0x0800, 42, []⟩], false⟩ ∧
    net_input_handler 0x0806 [7, 8] 3 [⟨0x0800, 42, []⟩, ⟨0x0806, 5, []⟩]
      = ⟨0, [⟨0x0800, 42, []⟩, ⟨0x0806, 5, [⟨3, 2, [7, 8]⟩]⟩], true⟩ :=
  ⟨(C9_input_handler_dispatch 0x86dd 0 [9]).1 [⟨0x0800, 42, []⟩] (by decide),
   (C9_input_handler_dispatch 0x0806 3 [7, 8]).2 [⟨0x0800, 42, []⟩] ⟨0x0806, 5, []⟩ []
     (by decide) (by decide)⟩

/-- C10: `net_init`'s result is not definite, because `ip_init`
(src/ip.c line 14) has no return statement: with the indeterminate value
read from `ip_init` equal to -1 `net_init` reports failure although the
IP layer performed no failing operation, while any other residual value
yields success. -/
theorem C10_net_init_depends_on_indeterminate :
    net_init (-1) = -1 ∧ net_init 0 = 0 ∧ net_init 7 = 0 := by
  refine ⟨rfl, rfl, rfl⟩

/-- C4: with the loopback queue at its capacity of 16 entries, the next
transmit (and the output call delegating to it on an up device with an
in-MTU payload) fails, raising no IRQ and leaving the private state, the
queue contents and the device fields unchanged; below capacity transmit
succeeds and the entry count grows by one, so the queue never exceeds 16
entries. -/
theorem C4_loopback_queue_capacity (dev : NetDevice) (lo : Loopback)
    (ty : Nat) (data : List Nat) :
    (lo.queue.length = LOOPBACK_QUEUE_LIMIT →
      loopback_transmit lo ty data = (-1, lo, false) ∧
      (NET_DEVICE_IS_UP dev ≠ 0 → data.length ≤ dev.mtu →
        net_device_output loopback_transmit_op dev lo ty data = (-1, dev, lo))) ∧
    (lo.queue.length < LOOPBACK_QUEUE_LIMIT →
      loopback_transmit lo ty data
        = (0, { lo with queue := lo.queue ++ [⟨ty, data.length, data⟩] }, true) ∧
      (loopback_transmit lo ty data).2.1.queue.length = lo.queue.length + 1) ∧
    (lo.queue.length ≤ LOOPBACK_QUEUE_LIMIT →
      (loopback_transmit lo ty data).2.1.queue.length ≤ LOOPBACK_QUEUE_LIMIT) := by
  refine ⟨?_, ?_, ?_⟩
  · intro hfull
    have h16 : LOOPBACK_QUEUE_LIMIT ≤ lo.queue.length := Nat.le_of_eq hfull.symm
    refine ⟨by simp [loopback_transmit, h16], ?_⟩
    intro hup hlen
    have hmtu : ¬ dev.mtu < data.length := Nat.not_lt.mpr hlen
    simp [net_device_output, if_neg hup, if_neg hmtu, loopback_transmit_op,
      loopback_transmit, h16]
  · intro hlt
    have h16 : ¬ LOOPBACK_QUEUE_LIMIT ≤ lo.queue.length := Nat.not_le.mpr hlt
    refine ⟨by simp [loopback_transmit, h16], ?_⟩
    simp [loopback_transmit, h16]
  · intro hle
    rcases Nat.lt_or_ge lo.queue.length LOOPBACK_QUEUE_LIMIT with hlt | hge
    · have h16 : ¬ LOOPBACK_QUEUE_LIMIT ≤ lo.queue.length := Nat.not_le.mpr hlt
      simp [loopback_transmit, h16]
      omega
    · simp [loopback_transmit, hge]
      exact hle

/-- C4 witness: a loopback queue holding exactly 16 entries rejects the
next transmit and stays as it is, and an up device's output call
surfaces that failure. -/
theorem C4_loopback_queue_capacity_witness :
    loopback_transmit ⟨36, List.replicate 16 ⟨0, 0, []⟩⟩ 0x0800 [1]
      = (-1, ⟨36, List.replicate 16 ⟨0, 0, []⟩⟩, false) ∧
    net_device_output loopback_transmit_op ⟨0, "net0", 1, 65535, 0x0011, 0, 0⟩
      ⟨36, List.replicate 16 ⟨0, 0, []⟩⟩ 0x0800 [1]
      = (-1, ⟨0, "net0", 1, 65535, 0x0011, 0, 0⟩, ⟨36, List.replicate 16 ⟨0, 0, []⟩⟩) :=
  ⟨((C4_loopback_queue_capacity ⟨0, "net0", 1, 65535, 0x0011, 0, 0⟩
      ⟨36, List.replicate 16 ⟨0, 0, []⟩⟩ 0x0800 [1]).1 (by decide)).1,
   ((C4_loopback_queue_capacity ⟨0, "net0", 1, 65535, 0x0011, 0, 0⟩
      ⟨36, List.replicate 16 ⟨0, 0, []⟩⟩ 0x0800 [1]).1 (by decide)).2
     (by decide) (by decide)⟩

theorem irq_conflict_of_fresh (irq f : Nat) (l : List IrqEntry)
    (h : ∀ e ∈ l, e.irq ≠ irq) : irq_conflict irq f l = false := by
  induction l with
  | nil => rfl
  | cons e rest ih =>
    have he : e.irq ≠ irq := h e (List.mem_cons_self _ _)
    have hrest : ∀ e' ∈ rest, e'.irq ≠ irq := fun e' he' => h e' (List.mem_cons_of_mem _ he')
    simp [irq_conflict, he, ih hrest]

theorem intr_dispatch_line_of_fresh (irq : Nat) (l : List IrqEntry)
    (h : ∀ e ∈ l, e.irq ≠ irq) : intr_dispatch_line irq l = [] := by
  induction l with
  | nil => rfl
  | cons e rest ih =>
    have he : e.irq ≠ irq := h e (List.mem_cons_self _ _)
    have hrest : ∀ e' ∈ rest, e'.irq ≠ irq := fun e' he' => h e' (List.mem_cons_of_mem _ he')
    simp [intr_dispatch_line, he, ih hrest]

/-- C5: on a line with no prior registration, a first `intr_request_irq`
succeeds; a second registration on the same line succeeds exactly when
both the already registered entry and the new registrant carry the
shareable flag, and when both do, dispatching that line invokes both
registered handlers (most recent first). -/
theorem C5_irq_sharing (irqs0 : List IrqEntry) (irq h1 h2 f1 f2 : Nat)
    (n1 n2 : String) (d1 d2 : Nat)
    (hfresh : ∀ e ∈ irqs0, e.irq ≠ irq) :
    (intr_request_irq irqs0 irq h1 f1 n1 d1).1 = 0 ∧
    ((intr_request_irq (intr_request_irq irqs0 irq h1 f1 n1 d1).2 irq h2 f2 n2 d2).1 = 0
       ↔ (f1 = INTR_IRQ_SHARED ∧ f2 = INTR_IRQ_SHARED)) ∧
    (f1 = INTR_IRQ_SHARED → f2 = INTR_IRQ_SHARED →
      intr_dispatch_line irq
        (intr_request_irq (intr_request_irq irqs0 irq h1 f1 n1 d1).2 irq h2 f2 n2 d2).2
        = [(h2, d2), (h1, d1)]) := by
  have hc1 : irq_conflict irq f1 irqs0 = false := irq_conflict_of_fresh irq f1 irqs0 hfresh
  have hc0 : irq_conflict irq f2 irqs0 = false := irq_conflict_of_fresh irq f2 irqs0 hfresh
  have hr1 : intr_request_irq irqs0 irq h1 f1 n1 d1
      = (0, ⟨irq, h1, f1, n1, d1⟩ :: irqs0) := by
    simp [intr_request_irq, hc1]
  have hc2 : irq_conflict irq f2 (⟨irq, h1, f1, n1, d1⟩ :: irqs0) = false
      ↔ (f1 = INTR_IRQ_SHARED ∧ f2 = INTR_IRQ_SHARED) := by
    by_cases hf1 : f1 = INTR_IRQ_SHARED
    · by_cases hf2 : f2 = INTR_IRQ_SHARED
      · subst hf1; subst hf2
        simp [irq_conflict, Nat.xor_self, hc0]
      · have hx : f2 ^^^ INTR_IRQ_SHARED ≠ 0 := fun h => hf2 (Nat.xor_eq_zero.mp h)
        simp [irq_conflict, hf1, hf2, hx]
    · have hx : f1 ^^^ INTR_IRQ_SHARED ≠ 0 := fun h => hf1 (Nat.xor_eq_zero.mp h)
      simp [irq_conflict, hf1, hx]
  refine ⟨by simp [hr1], ?_, ?_⟩
  · rw [hr1]
    constructor
    · intro h0
      apply hc2.mp
      by_contra hcc
      have hct : irq_conflict irq f2 (⟨irq, h1, f1, n1, d1⟩ :: irqs0) = true :=
        Bool.not_eq_false _ ▸ hcc
      simp [intr_request_irq, hct] at h0
    · intro hff
      have hcf := hc2.mpr hff
      simp [intr_request_irq, hcf]
  · intro hf1 hf2
    rw [hr1]
    have hcf := hc2.mpr ⟨hf1, hf2⟩
    simp [intr_request_irq, hcf, intr_dispatch_line,
      intr_dispatch_line_of_fresh irq irqs0 hfresh]

/-- C5 witness: on an empty registry, two shareable registrations on
line 36 both succeed and dispatching line 36 invokes both handlers,
while the same pair with a non-shareable second registrant fails. -/
theorem C5_irq_sharing_witness :
    (intr_request_irq [] 36 1 INTR_IRQ_SHARED "net0" 0).1 = 0 ∧
    ((intr_request_irq (intr_request_irq [] 36 1 INTR_IRQ_SHARED "net0" 0).2
        36 2 INTR_IRQ_SHARED "net1" 1).1 = 0
      ↔ (INTR_IRQ_SHARED = INTR_IRQ_SHARED ∧ INTR_IRQ_SHARED = INTR_IRQ_SHARED)) ∧
    intr_dispatch_line 36
      (intr_request_irq (intr_request_irq [] 36 1 INTR_IRQ_SHARED "net0" 0).2
        36 2 INTR_IRQ_SHARED "net1" 1).2 = [(2, 1), (1, 0)] := by
  have h := C5_irq_sharing [] 36 1 2 INTR_IRQ_SHARED INTR_IRQ_SHARED "net0" "net1" 0 1
    (by intro e he; cases he)
  exact ⟨h.1, h.2.1, h.2.2 rfl rfl⟩

/-- C8: calling shutdown from the thread that ran `intr_init` before the
dispatch thread was ever started closes nothing (all devices are still
down, so each close is rejected and every device is returned unchanged),
sends no terminate signal and joins no thread. -/
theorem C8_shutdown_before_run_noop
    (devs : List (Option (NetDevice → Int × NetDevice) × NetDevice)) (self : Nat)
    (hdown : ∀ d ∈ devs, NET_DEVICE_IS_UP d.2 = 0) :
    net_shutdown devs (intr_init_tid self) self = (devs.map Prod.snd, ⟨false, false⟩) ∧
    intr_shutdown (intr_init_tid self) self = ⟨false, false⟩ := by
  have hintr : intr_shutdown (intr_init_tid self) self = ⟨false, false⟩ := by
    simp [intr_shutdown, intr_init_tid]
  refine ⟨?_, hintr⟩
  unfold net_shutdown
  rw [hintr]
  have hmap : devs.map (fun d => (net_device_close d.1 d.2).2) = devs.map Prod.snd := by
    apply List.map_congr_left
    intro d hd
    simp [net_device_close, hdown d hd]
  rw [hmap]

/-- C8 witness: with one registered (still down) loopback device,
shutdown from the initialising thread is a observable no-op. -/
theorem C8_shutdown_before_run_noop_witness :
    net_shutdown [(none, ⟨0, "net0", 1, 65535, 0x0010, 0, 0⟩)] (intr_init_tid 7) 7
      = ([⟨0, "net0", 1, 65535, 0x0010, 0, 0⟩], ⟨false, false⟩) :=
  (C8_shutdown_before_run_noop [(none, ⟨0, "net0", 1, 65535, 0x0010, 0, 0⟩)] 7
    (by intro d hd; simp at hd; rw [hd]; rfl)).1

/-- One pending frame in the loopback queue, for exercising the ISR
trace on a concrete input. -/
def lo_one_pending : Loopback := ⟨36, [⟨0x0800, 3, [1, 2, 3]⟩]⟩

/-- C7 counterexample: on a loopback queue holding one entry, the ISR
trace hands the entry to `net_input_handler` while the mutex IS held
(the lock taken at driver/loopback.c line 75 is released only at line
94, after the hand-off at line 88), so the claim that the hand-off
happens outside the mutex-protected region is false. -/
theorem C7_counterexample :
    handoffs_all_outside_mutex (loopback_isr_trace lo_one_pending) = false := by
  decide

theorem annotate_isr_actions_held (q : List LoopbackEntry) :
    ∀ x ∈ annotate true (loopback_isr_actions q ++ [IsrAction.unlock]), x.2 = true := by
  induction q with
  | nil =>
    intro x hx
    have h1 : annotate true (loopback_isr_actions [] ++ [IsrAction.unlock])
        = [(IsrAction.unlock, true)] := rfl
    rw [h1] at hx
    rw [List.mem_singleton.mp hx]
  | cons e rest ih =>
    intro x hx
    have h1 : annotate true (loopback_isr_actions (e :: rest) ++ [IsrAction.unlock])
        = (IsrAction.handoff e.ty e.len e.data, true) :: (IsrAction.free, true) ::
          annotate true (loopback_isr_actions rest ++ [IsrAction.unlock]) := rfl
    rw [h1] at hx
    rcases List.mem_cons.mp hx with h | hx1
    · rw [h]
    · rcases List.mem_cons.mp hx1 with h | hx2
      · rw [h]
      · exact ih x hx2

/-- C7 (amended): for each entry popped from the device's queue,
`loopback_isr` invokes the protocol hand-off (`net_input_handler`) while
the device's mutex IS held — the whole drain, hand-offs included, runs
inside the mutex-protected region. -/
theorem C7_handoff_inside_mutex (lo : Loopback) (ty len : Nat)
    (data : List Nat) (b : Bool)
    (h : (IsrAction.handoff ty len data, b) ∈ annotate false (loopback_isr_trace lo)) :
    b = true := by
  have h1 : annotate false (loopback_isr_trace lo)
      = (IsrAction.lock, false) ::
        annotate true (loopback_isr_actions lo.queue ++ [IsrAction.unlock]) := rfl
  rw [h1] at h
  rcases List.mem_cons.mp h with heq | hmem
  · exact absurd (congrArg Prod.fst heq) (by simp)
  · exact annotate_isr_actions_held lo.queue _ hmem

/-- C7 witness: the single hand-off of a one-entry queue is annotated as
happening with the mutex held. -/
theorem C7_handoff_inside_mutex_witness :
    ((IsrAction.handoff 0x0800 3 [1, 2, 3], true)
        ∈ annotate false (loopback_isr_trace lo_one_pending)) ∧ true = true :=
  ⟨by decide,
   C7_handoff_inside_mutex lo_one_pending 0x0800 3 [1, 2, 3] true (by decide)⟩

theorem invocations_append (a b : List SoftirqEvent) :
    invocations (a ++ b) = invocations a ++ invocations b := by
  induction a with
  | nil => rfl
  | cons e rest ih =>
    cases e with
    | invoke h d l v => simp [invocations, ih]
    | release d l v => simp [invocations, ih]

theorem input_then_drain (ty dev : Nat) (data : List Nat) :
    ∀ (ps : List NetProtocol) (p : NetProtocol),
      findProtocol ty ps = some p → (∀ q ∈ ps, q.queue = []) →
      invocations (net_softirq_handler (net_input_handler ty data dev ps).protocols).2
        = [SoftirqEvent.invoke p.handler data data.length dev] := by
  intro ps
  induction ps with
  | nil =>
    intro p hfind _
    simp [findProtocol] at hfind
  | cons q rest ih =>
    intro p hfind hempty
    have hq0 : q.queue = [] := hempty q (List.mem_cons_self _ _)
    have hrest : ∀ x ∈ rest, x.queue = [] := fun x hx => hempty x (List.mem_cons_of_mem _ hx)
    by_cases hq : q.ty = ty
    · have hp : q = p := by
        have h := hfind
        simp [findProtocol, hq] at h
        exact h
      subst hp
      have hsnd := net_softirq_handler_snd_empty rest hrest
      simp [net_input_handler, hq, net_softirq_handler, hq0, softirq_drain_queue,
        invocations_append, hsnd, invocations]
    · have hfind' : findProtocol ty rest = some p := by
        have h := hfind
        simp [findProtocol, hq] at h
        exact h
      simp [net_input_handler, hq, net_softirq_handler, hq0, softirq_drain_queue,
        ih p hfind' hrest]

/-- C1: from a quiescent system (empty loopback queue, all protocol
queues empty) with the device up, the payload within the MTU and a
protocol registered for the frame's type, a successful `output` on the
loopback device followed by its ISR and then the softirq drain invokes
the handler registered for that type exactly once, with the submitted
bytes, their length, and the loopback device as originating device. -/
theorem C1_loopback_end_to_end (dev : NetDevice) (lo : Loopback)
    (ps : List NetProtocol) (ty devId : Nat) (data : List Nat) (p : NetProtocol)
    (hup : NET_DEVICE_IS_UP dev ≠ 0)
    (hmtu : data.length ≤ dev.mtu)
    (hq : lo.queue = [])
    (hfind : findProtocol ty ps = some p)
    (hempty : ∀ q ∈ ps, q.queue = []) :
    net_device_output loopback_transmit_op dev lo ty data
      = (0, dev, { lo with queue := [⟨ty, data.length, data⟩] }) ∧
    invocations (net_softirq_handler
        (loopback_isr devId { lo with queue := [⟨ty, data.length, data⟩] } ps).2.1).2
      = [SoftirqEvent.invoke p.handler data data.length devId] := by
  have hlt : ¬ dev.mtu < data.length := Nat.not_lt.mpr hmtu
  constructor
  · simp [net_device_output, if_neg hup, if_neg hlt, loopback_transmit_op,
      loopback_transmit, hq, LOOPBACK_QUEUE_LIMIT]
  · have hisr : (loopback_isr devId { lo with queue := [⟨ty, data.length, data⟩] } ps).2.1
        = (net_input_handler ty data devId ps).protocols := by
      simp [loopback_isr, loopback_isr_drain]
    rw [hisr]
    exact input_then_drain ty devId data ps p hfind hempty

/-- C1 witness: the concrete §8 scenario — type 0x0800 registered, a
3-byte frame output on the quiescent loopback device is delivered to
handler 42 exactly once with bytes [1, 2, 3], length 3, device 0. -/
theorem C1_loopback_end_to_end_witness :
    net_device_output loopback_transmit_op ⟨0, "net0", 1, 65535, 0x0011, 0, 0⟩
        ⟨36, []⟩ 0x0800 [1, 2, 3]
      = (0, ⟨0, "net0", 1, 65535, 0x0011, 0, 0⟩, ⟨36, [⟨0x0800, 3, [1, 2, 3]⟩]⟩) ∧
    invocations (net_softirq_handler
        (loopback_isr 0 ⟨36, [⟨0x0800, 3, [1, 2, 3]⟩]⟩ [⟨0x0800, 42, []⟩]).2.1).2
      = [SoftirqEvent.invoke 42 [1, 2, 3] 3 0] :=
  C1_loopback_end_to_end ⟨0, "net0", 1, 65535, 0x0011, 0, 0⟩ ⟨36, []⟩
    [⟨0x0800, 42, []⟩] 0x0800 0 [1, 2, 3] ⟨0x0800, 42, []⟩
    (by decide) (by decide) rfl (by decide) (by decide)

/-- C3 witness: draining a registry holding one protocol with one queued
entry yields exactly that entry's invoke and release events, and the
resulting entry of the drained registry has an empty queue. -/
theorem C3_softirq_drains_to_empty_witness :
    (net_softirq_handler [⟨0x0800, 42, [⟨0, 2, [7, 8]⟩]⟩]).2
      = ([⟨0x0800, 42, [⟨0, 2, [7, 8]⟩]⟩] : List NetProtocol).flatMap (fun p => p.queue.flatMap
          (fun e => [SoftirqEvent.invoke p.handler e.data e.len e.dev,
                     SoftirqEvent.release e.data e.len e.dev])) ∧
    (⟨0x0800, 42, []⟩ : NetProtocol).queue = [] :=
  ⟨(C3_softirq_drains_to_empty [⟨0x0800, 42, [⟨0, 2, [7, 8]⟩]⟩]).2.1,
   (C3_softirq_drains_to_empty [⟨0x0800, 42, [⟨0, 2, [7, 8]⟩]⟩]).2.2
     ⟨0x0800, 42, []⟩ (by decide)⟩
